import Mathlib

/-!
Shallow embedding of `minio/resource_minio_ilm_policy.go` from
`terraform-provider-minio`, together with proofs settling the frozen claims
about its specification.

Conventions of the embedding:
  * Go `int` is modelled as `Int`; the `fmt.Sscanf` scanner reports an error
    when the scanned value does not fit in a signed 64-bit integer, which is
    modelled by an explicit range check against `2 ^ 63`.
  * Go `time.Time` values are only ever produced here by
    `time.Parse("2006-01-02", s)`, so a calendar date triple suffices; Go's
    zero `time.Time` (January 1 of year 1) is modelled by `zeroDate`.
  * Terraform's `schema.ResourceData` is modelled by an explicit record of
    the attributes this resource uses (`id`, `bucket`, `rule`), and the two
    MinIO client calls are modelled by a record of response functions.
  * `d.Set` on well-typed data never fails in Terraform, so the dead
    `d.Set(...)` error branches of the Go code are not represented.
-/

namespace Minio

/-! ### The `fmt.Sscanf(s, "%dd", &days)` scanner

`%d` skips the scanner's leading white-space runes (a bare newline is an
error for `Sscanf`), accepts an optional sign followed by one or more
decimal digits, and fails on 64-bit overflow; the literal `d` must then
match the next input character.  `Sscanf` does not require the whole input to
be consumed, so trailing characters after the matched `d` are ignored. -/

/-- Value of a big-endian list of decimal digit characters. -/
def digitsVal (ds : List Char) : Nat :=
  ds.foldl (fun a c => 10 * a + (c.toNat - 48)) 0

/-- The white-space rune table of Go's fmt scanner (`space` in
`fmt/scan.go`): 0x09 to 0x0d, 0x20, 0x85, 0xa0, 0x1680, 0x2000 to 0x200a,
0x2028, 0x2029, 0x202f, 0x205f, 0x3000; runes beyond 0xffff are never
space. -/
def isScanSpace (c : Char) : Bool :=
  decide ((0x09 ≤ c.toNat ∧ c.toNat ≤ 0x0d) ∨ c.toNat = 0x20 ∨ c.toNat = 0x85 ∨
    c.toNat = 0xa0 ∨ c.toNat = 0x1680 ∨ (0x2000 ≤ c.toNat ∧ c.toNat ≤ 0x200a) ∨
    c.toNat = 0x2028 ∨ c.toNat = 0x2029 ∨ c.toNat = 0x202f ∨ c.toNat = 0x205f ∨
    c.toNat = 0x3000)

/-- `SkipSpace` as run by the `%d` verb of `Sscanf`: space runes are
skipped, but a newline (`nlIsSpace` is false for `Sscanf`) is an error,
modelled by `none`.  A carriage return is in the space table, so it is
skipped and a following newline then errors, as in Go. -/
def skipSpace : List Char → Option (List Char)
  | [] => some []
  | c :: r =>
    if c = '\n' then none
    else if isScanSpace c then skipSpace r
    else some (c :: r)

/-- Optional sign consumed by the `%d` verb. -/
def splitSign (cs : List Char) : Bool × List Char :=
  match cs with
  | c :: r => if c = '-' then (true, r) else if c = '+' then (false, r) else (false, c :: r)
  | [] => (false, [])

/-- Range check and literal-`d` match finishing the `%dd` scan: `Sscanf`
errors when the value does not fit a signed 64-bit integer, and the literal
`d` of the format must match the next input character (input left over
after that is ignored). -/
def finishScan (v : Int) (rest : List Char) : Option Int :=
  if v < -(2 ^ 63) ∨ 2 ^ 63 ≤ v then none
  else
    match rest with
    | 'd' :: _ => some v
    | _ => none

/-- Digit collection of the `%d` verb after the sign: one or more decimal
digits are required. -/
def scanDigits (sign : Bool × List Char) : Option Int :=
  if (sign.2.takeWhile Char.isDigit).isEmpty then none
  else
    finishScan
      (if sign.1 then -(digitsVal (sign.2.takeWhile Char.isDigit) : Int)
       else (digitsVal (sign.2.takeWhile Char.isDigit) : Int))
      (sign.2.dropWhile Char.isDigit)

/-- Model of `fmt.Sscanf(s, "%dd", &days)`: `some v` when the scan succeeds
with value `v`, `none` when `Sscanf` reports an error. -/
def sscanfDd (s : String) : Option Int :=
  match skipSpace s.data with
  | none => none
  | some cs => scanDigits (splitSign cs)

/-- Big-endian decimal digits of a natural number (a structurally recursive
reformulation of core's fuelled `Nat.toDigitsCore`). -/
def decDigits (n : Nat) : List Char :=
  if _h : n < 10 then [Nat.digitChar n]
  else decDigits (n / 10) ++ [Nat.digitChar (n % 10)]
decreasing_by exact Nat.div_lt_self (by omega) (by omega)

/-! ### The `time.Parse("2006-01-02", s)` date parser -/

/-- A calendar date as produced by Go's `time.Parse` with layout
`"2006-01-02"`. -/
structure GoDate where
  Year : Nat
  Month : Nat
  Day : Nat
deriving DecidableEq, Repr

/-- Go's zero `time.Time` is January 1 of year 1. -/
def zeroDate : GoDate := ⟨1, 1, 1⟩

/-- Gregorian leap-year test used by Go's `time` package. -/
def isLeapYear (y : Nat) : Bool :=
  y % 4 == 0 && (y % 100 != 0 || y % 400 == 0)

/-- Number of days in a month, as validated by Go's `time.Parse`. -/
def daysInMonth (y m : Nat) : Nat :=
  if m = 2 then (if isLeapYear y then 29 else 28)
  else if m = 4 ∨ m = 6 ∨ m = 9 ∨ m = 11 then 30
  else 31

/-- Go's `getnum` with `fixed` true, as `time.Parse` runs it for the
zero-padded `01` and `02` layout chunks: exactly two decimal digits are
required. -/
def getnum2 : List Char → Option (Nat × List Char)
  | c1 :: c2 :: rest =>
    if c1.isDigit && c2.isDigit then
      some ((c1.toNat - 48) * 10 + (c2.toNat - 48), rest)
    else none
  | _ => none

/-- Model of `time.Parse("2006-01-02", s)`: a four-digit year, a literal
dash, a two-digit month, a literal dash, a two-digit day, nothing else;
month and day are range checked.  `none` models a parse error. -/
def goParseDate (s : String) : Option GoDate :=
  match s.data with
  | y1 :: y2 :: y3 :: y4 :: rest =>
    if y1.isDigit && y2.isDigit && y3.isDigit && y4.isDigit then
      let year := digitsVal [y1, y2, y3, y4]
      match rest with
      | '-' :: rest1 =>
        match getnum2 rest1 with
        | some mo =>
          match mo.2 with
          | '-' :: rest3 =>
            match getnum2 rest3 with
            | some da =>
              if da.2 = [] ∧ 1 ≤ mo.1 ∧ mo.1 ≤ 12 ∧ 1 ≤ da.1 ∧ da.1 ≤ daysInMonth year mo.1
              then some ⟨year, mo.1, da.1⟩ else none
            | none => none
          | _ => none
        | none => none
      | _ => none
    else none
  | _ => none

/-- Decimal rendering of a natural number padded with leading zeros to a
given width, as Go's date formatter produces. -/
def padNum (width n : Nat) : String :=
  let r := Nat.repr n
  ⟨List.replicate (width - r.length) '0' ++ r.data⟩

/-- Model of Go's `t.Format("2006-01-02")`. -/
def formatDate (d : GoDate) : String :=
  padNum 4 d.Year ++ "-" ++ padNum 2 d.Month ++ "-" ++ padNum 2 d.Day

/-! ### The `minio-go` lifecycle data model (package `lifecycle`)

Only the fields the provider touches are represented. -/

/-- `lifecycle.Tag`. -/
structure Tag where
  Key : String
  Value : String
deriving DecidableEq, Repr

/-- `lifecycle.And`: the compound (AND) filter payload. -/
structure FilterAnd where
  Prefix : String
  Tags : List Tag
deriving DecidableEq, Repr

/-- `lifecycle.Filter`. -/
structure Filter where
  And : FilterAnd
  Prefix : String
deriving DecidableEq, Repr

/-- `lifecycle.Expiration`; Go's zero value is `Expiration.empty`. -/
structure Expiration where
  Date : GoDate
  Days : Int
  DeleteMarker : Bool
deriving DecidableEq, Repr

/-- The zero `lifecycle.Expiration{}` struct. -/
def Expiration.empty : Expiration := ⟨zeroDate, 0, false⟩

/-- `lifecycle.Expiration.IsDaysNull`. -/
def Expiration.IsDaysNull (e : Expiration) : Bool := e.Days == 0

/-- `lifecycle.Expiration.IsDateNull`. -/
def Expiration.IsDateNull (e : Expiration) : Bool := e.Date == zeroDate

/-- `lifecycle.Expiration.IsNull`. -/
def Expiration.IsNull (e : Expiration) : Bool :=
  e.IsDaysNull && e.IsDateNull && !e.DeleteMarker

/-- `lifecycle.Transition`; Go's zero value is `Transition.empty`. -/
structure Transition where
  Date : GoDate
  StorageClass : String
  Days : Int
deriving DecidableEq, Repr

/-- The zero `lifecycle.Transition{}` struct. -/
def Transition.empty : Transition := ⟨zeroDate, "", 0⟩

/-- `lifecycle.Transition.IsNull`: no storage class set. -/
def Transition.IsNull (t : Transition) : Bool := t.StorageClass == ""

/-- `lifecycle.Transition.IsDaysNull`. -/
def Transition.IsDaysNull (t : Transition) : Bool := t.Days == 0

/-- `lifecycle.Transition.IsDateNull`. -/
def Transition.IsDateNull (t : Transition) : Bool := t.Date == zeroDate

/-- `lifecycle.NoncurrentVersionExpiration` (the `NoncurrentDays` field). -/
structure NoncurrentVersionExpiration where
  NoncurrentDays : Int
deriving DecidableEq, Repr

/-- `lifecycle.NoncurrentVersionTransition` (the `NoncurrentDays` field). -/
structure NoncurrentVersionTransition where
  NoncurrentDays : Int
deriving DecidableEq, Repr

/-- `lifecycle.Rule`. -/
structure Rule where
  ID : String
  Expiration : Expiration
  Transition : Transition
  NoncurrentVersionExpiration : NoncurrentVersionExpiration
  NoncurrentVersionTransition : NoncurrentVersionTransition
  Status : String
  RuleFilter : Filter
deriving DecidableEq, Repr

/-- `lifecycle.Configuration`; `lifecycle.NewConfiguration()` is the empty
rule list. -/
structure LifecycleConfig where
  Rules : List Rule
deriving DecidableEq, Repr

/-! ### The flat Terraform-side rule representation

One entry of the `rule` list attribute, with the types the schema gives the
values.  Tags are an association list standing for Terraform's string map;
Go map iteration order and duplicate-key collapsing are abstracted by using
the list in its given order (the claims under study compare empty tag sets
or quantify up to permutation). -/

/-- One element of the `transition` block, as stored by the schema: absent
string keys read back as `""`. -/
structure TransitionFlat where
  days : String
  date : String
  storage_class : String
deriving DecidableEq, Repr

/-- One element of the `rule` list attribute. -/
structure FlatRule where
  id : String
  expiration : String
  transition : List TransitionFlat
  noncurrent_version_expiration_days : Int
  noncurrent_version_transition_days : Int
  status : String
  filter : String
  tags : List (String × String)
deriving DecidableEq, Repr

/-! ### The codecs (`parseILMExpiration`, `parseILMTransition`, read-side
decoding) -/

/-- `parseILMExpiration` from the source: literal `DeleteMarker`, else the
`%dd` scan, else the date parse, else the zero struct. -/
def parseILMExpiration (s : String) : Expiration :=
  if s = "DeleteMarker" then { Date := zeroDate, Days := 0, DeleteMarker := true }
  else
    match sscanfDd s with
    | some d => { Date := zeroDate, Days := d, DeleteMarker := false }
    | none =>
      match goParseDate s with
      | some dt => { Date := dt, Days := 0, DeleteMarker := false }
      | none => Expiration.empty

/-- `validateILMExpiration` from the source: reject exactly when the parsed
expiration equals the zero struct; `some msg` models the diagnostic. -/
def validateILMExpiration (s : String) : Option String :=
  if parseILMExpiration s = Expiration.empty then
    some "expiration must be a duration (5d), date (1970-01-01), or \"DeleteMarker\""
  else none

/-- `parseILMTransition` from the source: empty list gives the zero struct;
otherwise the first element's `days` is scanned with `%dd`, else its `date`
is parsed, else the zero struct. -/
def parseILMTransition (transitions : List TransitionFlat) : Transition :=
  match transitions with
  | [] => Transition.empty
  | t :: _ =>
    match sscanfDd t.days with
    | some d => { Date := zeroDate, StorageClass := t.storage_class, Days := d }
    | none =>
      match goParseDate t.date with
      | some dt => { Date := dt, StorageClass := t.storage_class, Days := 0 }
      | none => Transition.empty

/-- The expiration decoding performed inline by `minioReadILMPolicy`. -/
def decodeExpiration (e : Expiration) : String :=
  if e.DeleteMarker then "DeleteMarker"
  else if e.Days ≠ 0 then Int.repr e.Days ++ "d"
  else if !e.IsNull then formatDate e.Date
  else ""

/-- The transition decoding performed inline by `minioReadILMPolicy`; a map
key the Go code does not set reads back as `""` through the schema. -/
def decodeTransition (t : Transition) : List TransitionFlat :=
  if !t.IsNull then
    [{ days := if !t.IsDaysNull then Int.repr t.Days ++ "d" else ""
       date := if t.IsDaysNull && !t.IsDateNull then formatDate t.Date else ""
       storage_class := t.StorageClass }]
  else []

/-- The filter decoding performed inline by `minioReadILMPolicy`: the
compound branch is taken exactly when the AND tag list is non-empty. -/
def decodeFilter (f : Filter) : String × List (String × String) :=
  if f.And.Tags.length > 0 then
    (f.And.Prefix, f.And.Tags.map fun t => (t.Key, t.Value))
  else
    (f.Prefix, [])

/-- The filter construction performed inline by `minioCreateILMPolicy`:
starting from the zero `lifecycle.Filter`, the AND branch is filled exactly
when the copied tag map is non-empty, else the simple prefix is set. -/
def buildFilter (pfx : String) (tags : List (String × String)) : Filter :=
  if tags.length > 0 then
    { And := { Prefix := pfx, Tags := tags.map fun p => { Key := p.1, Value := p.2 } }
      Prefix := "" }
  else
    { And := { Prefix := "", Tags := [] }, Prefix := pfx }

/-- The per-rule construction performed inline by `minioCreateILMPolicy`. -/
def buildRule (rule : FlatRule) : Rule :=
  { ID := rule.id
    Expiration := parseILMExpiration rule.expiration
    Transition := parseILMTransition rule.transition
    NoncurrentVersionExpiration := { NoncurrentDays := rule.noncurrent_version_expiration_days }
    NoncurrentVersionTransition := { NoncurrentDays := rule.noncurrent_version_transition_days }
    Status := "Enabled"
    RuleFilter := buildFilter rule.filter rule.tags }

/-- The per-rule decoding performed inline by `minioReadILMPolicy`. -/
def decodeRule (r : Rule) : FlatRule :=
  let fl := decodeFilter r.RuleFilter
  { id := r.ID
    expiration := decodeExpiration r.Expiration
    transition := decodeTransition r.Transition
    noncurrent_version_expiration_days :=
      if r.NoncurrentVersionExpiration.NoncurrentDays ≠ 0 then
        r.NoncurrentVersionExpiration.NoncurrentDays
      else 0
    noncurrent_version_transition_days :=
      if r.NoncurrentVersionTransition.NoncurrentDays ≠ 0 then
        r.NoncurrentVersionTransition.NoncurrentDays
      else 0
    status := r.Status
    filter := fl.1
    tags := fl.2 }

/-! ### The reconciliation state machine -/

/-- Modelled from the spec: `NewResourceError` lives outside the given
sources; per the spec a store error carries a human-readable message and
the bucket name as context, together with the underlying cause. -/
structure ResourceError where
  message : String
  resource : String
  cause : String
deriving DecidableEq, Repr

/-- `NewResourceError(msg, resource, err)` as a diagnostic value. -/
def NewResourceError (m r c : String) : Option ResourceError := some ⟨m, r, c⟩

/-- The MinIO client calls the resource uses, as response functions:
`setBucketLifecycle` returns `some err` on failure, `getBucketLifecycle`
returns the configuration or an error. -/
structure Store where
  setBucketLifecycle : String → LifecycleConfig → Option String
  getBucketLifecycle : String → Except String LifecycleConfig

/-- The attributes of `schema.ResourceData` this resource uses. -/
structure TFState where
  id : String
  bucket : String
  rule : List FlatRule
deriving DecidableEq, Repr

/-- `minioReadILMPolicy`: on a failed get, clear the identity and return no
diagnostic; on success, mirror bucket and decoded rules. -/
def minioReadILMPolicy (store : Store) (d : TFState) : TFState × Option ResourceError :=
  match store.getBucketLifecycle d.id with
  | Except.error _ => ({ d with id := "" }, none)
  | Except.ok config =>
    ({ d with bucket := d.id, rule := config.Rules.map decodeRule }, none)

/-- `minioCreateILMPolicy`: build the full rule list, set it on the store,
report a tagged error on failure, else set the identity and read. -/
def minioCreateILMPolicy (store : Store) (d : TFState) : TFState × Option ResourceError :=
  let bucket := d.bucket
  let config : LifecycleConfig := { Rules := d.rule.map buildRule }
  match store.setBucketLifecycle bucket config with
  | some e => (d, NewResourceError "creating bucket lifecycle failed" bucket e)
  | none => minioReadILMPolicy store { d with id := bucket }

/-- `minioUpdateILMPolicy`: on a rule change run the create (its returned
diagnostics are discarded by the Go code), then always return the read. -/
def minioUpdateILMPolicy (store : Store) (ruleChanged : Bool) (d : TFState) :
    TFState × Option ResourceError :=
  let d1 := if ruleChanged then (minioCreateILMPolicy store d).1 else d
  minioReadILMPolicy store d1

/-- `minioDeleteILMPolicy`: set the empty configuration; report a tagged
error on failure, else clear the identity. -/
def minioDeleteILMPolicy (store : Store) (d : TFState) : TFState × Option ResourceError :=
  match store.setBucketLifecycle d.id { Rules := [] } with
  | some e => (d, NewResourceError "deleting lifecycle configuration failed" d.id e)
  | none => ({ d with id := "" }, none)

/-! ### Spec-side shape definitions

These two definitions follow the WORDS of the spec ("a duration token
matching the pattern `<integer>d`", "an ISO calendar date `YYYY-MM-DD`"),
for comparison against the scanner the code actually uses. -/

/-- The spec's duration shape: one or more decimal digits followed by a
final `d`, nothing else. -/
def specDurationShapeB (s : String) : Bool :=
  match s.data.reverse with
  | 'd' :: rest => !rest.isEmpty && rest.all Char.isDigit
  | _ => false

/-- The spec's ISO date shape: `YYYY-MM-DD` with four, two and two decimal
digits. -/
def specDateShapeB (s : String) : Bool :=
  match s.data with
  | [y1, y2, y3, y4, h1, m1, m2, h2, d1, d2] =>
    y1.isDigit && y2.isDigit && y3.isDigit && y4.isDigit &&
      (h1 == '-') && m1.isDigit && m2.isDigit && (h2 == '-') && d1.isDigit && d2.isDigit
  | _ => false

/-! ### Concrete fixtures used by witnesses and counterexamples -/

/-- A store whose get-lifecycle call always fails. -/
def failGetStore : Store :=
  { setBucketLifecycle := fun _ _ => none
    getBucketLifecycle := fun _ => Except.error "connection refused" }

/-- A store on which every call succeeds; the remote configuration is
empty. -/
def okStore : Store :=
  { setBucketLifecycle := fun _ _ => none
    getBucketLifecycle := fun _ => Except.ok { Rules := [] } }

/-- A store whose set-lifecycle call always fails with cause `boom` and
whose get-lifecycle call succeeds with an empty configuration. -/
def failSetStore : Store :=
  { setBucketLifecycle := fun _ _ => some "boom"
    getBucketLifecycle := fun _ => Except.ok { Rules := [] } }

/-- A resource state for bucket `b1` with no rules. -/
def stateB1 : TFState := { id := "b1", bucket := "b1", rule := [] }

/-- The spec's first end-to-end scenario input:
`{id:"r1", expiration:"5d", filter:"tmp/", tags:{}}`. -/
def r1In : FlatRule :=
  { id := "r1", expiration := "5d", transition := []
    noncurrent_version_expiration_days := 0, noncurrent_version_transition_days := 0
    status := "", filter := "tmp/", tags := [] }

/-- The spec's second end-to-end scenario input:
`{id:"r2", expiration:"DeleteMarker", noncurrent_version_expiration_days:30,
filter:"", tags:{"k":"v"}}`. -/
def r2In : FlatRule :=
  { id := "r2", expiration := "DeleteMarker", transition := []
    noncurrent_version_expiration_days := 30, noncurrent_version_transition_days := 0
    status := "", filter := "", tags := [("k", "v")] }

/-! ### Decimal numerals: the scanner is correct on `Nat.repr`

`Nat.repr n ++ "d"` is the string the claims write as `"<n>d"`.  The
following lemmas show that the `%dd` scan recovers `n` from it whenever `n`
fits in a signed 64-bit integer. -/

theorem digitChar_isDigit {m : Nat} (h : m < 10) : (Nat.digitChar m).isDigit = true := by
  interval_cases m <;> decide

theorem digitChar_toNat {m : Nat} (h : m < 10) : (Nat.digitChar m).toNat = 48 + m := by
  interval_cases m <;> decide

theorem decDigits_ne_nil (n : Nat) : decDigits n ≠ [] := by
  rw [decDigits]
  split
  · simp
  · simp

theorem decDigits_all_digit (n : Nat) : ∀ c ∈ decDigits n, c.isDigit = true := by
  induction n using Nat.strong_induction_on with
  | _ n ih =>
    rw [decDigits]
    split
    · rename_i h
      intro c hc
      rw [List.mem_singleton] at hc
      subst hc
      exact digitChar_isDigit h
    · rename_i h
      intro c hc
      rw [List.mem_append] at hc
      rcases hc with hc | hc
      · exact ih (n / 10) (Nat.div_lt_self (by omega) (by omega)) c hc
      · rw [List.mem_singleton] at hc
        subst hc
        exact digitChar_isDigit (Nat.mod_lt _ (by omega))

theorem digitsVal_append_singleton (l : List Char) (c : Char) :
    digitsVal (l ++ [c]) = 10 * digitsVal l + (c.toNat - 48) := by
  unfold digitsVal
  rw [List.foldl_append]
  rfl

theorem digitsVal_decDigits (n : Nat) : digitsVal (decDigits n) = n := by
  induction n using Nat.strong_induction_on with
  | _ n ih =>
    rw [decDigits]
    split
    · rename_i h
      show 10 * 0 + ((Nat.digitChar n).toNat - 48) = n
      rw [digitChar_toNat h]
      omega
    · rename_i h
      rw [digitsVal_append_singleton,
        ih (n / 10) (Nat.div_lt_self (by omega) (by omega)),
        digitChar_toNat (Nat.mod_lt _ (by omega))]
      omega

theorem toDigitsCore_eq_decDigits :
    ∀ (fuel n : Nat) (acc : List Char), n < fuel →
      Nat.toDigitsCore 10 fuel n acc = decDigits n ++ acc := by
  intro fuel
  induction fuel with
  | zero => intro n acc h; omega
  | succ f ih =>
    intro n acc h
    show (if n / 10 = 0 then Nat.digitChar (n % 10) :: acc
          else Nat.toDigitsCore 10 f (n / 10) (Nat.digitChar (n % 10) :: acc)) =
        decDigits n ++ acc
    by_cases h10 : n / 10 = 0
    · have hn : n < 10 := by
        rcases Nat.lt_or_ge n 10 with h1 | h1
        · exact h1
        · have hd : 1 ≤ n / 10 := Nat.one_le_div_iff (by omega) |>.mpr h1
          omega
      rw [if_pos h10, decDigits, dif_pos hn, Nat.mod_eq_of_lt hn]
      rfl
    · have hge : 10 ≤ n := by
        rcases Nat.lt_or_ge n 10 with h1 | h1
        · exact absurd (Nat.div_eq_of_lt h1) h10
        · exact h1
      have hlt : n / 10 < f := by
        have hdiv : n / 10 < n := Nat.div_lt_self (by omega) (by omega)
        omega
      rw [if_neg h10, ih (n / 10) _ hlt]
      conv_rhs => rw [decDigits]
      rw [dif_neg (by omega), List.append_assoc]
      rfl

theorem repr_eq_decDigits (n : Nat) : Nat.repr n = ⟨decDigits n⟩ := by
  show (Nat.toDigits 10 n).asString = _
  unfold Nat.toDigits
  rw [toDigitsCore_eq_decDigits (n + 1) n [] (by omega), List.append_nil]
  rfl

theorem decDigits_head (n : Nat) :
    ∃ m cs, m < 10 ∧ decDigits n = Nat.digitChar m :: cs := by
  induction n using Nat.strong_induction_on with
  | _ n ih =>
    rw [decDigits]
    split
    · rename_i h
      exact ⟨n, [], h, rfl⟩
    · rename_i h
      obtain ⟨m, cs, hm, hcons⟩ := ih (n / 10) (Nat.div_lt_self (by omega) (by omega))
      exact ⟨m, cs ++ [Nat.digitChar (n % 10)], hm, by rw [hcons]; rfl⟩

theorem skipSpace_digitChar {m : Nat} (h : m < 10) (r : List Char) :
    skipSpace (Nat.digitChar m :: r) = some (Nat.digitChar m :: r) := by
  interval_cases m <;> rfl

theorem isDigit_ne_minus {c : Char} (h : c.isDigit = true) : c ≠ '-' := by
  rintro rfl; exact absurd h (by decide)

theorem isDigit_ne_plus {c : Char} (h : c.isDigit = true) : c ≠ '+' := by
  rintro rfl; exact absurd h (by decide)

theorem finishScan_d (n : Nat) (h : n < 2 ^ 63) (rest : List Char) :
    finishScan (n : Int) ('d' :: rest) = some (n : Int) := by
  unfold finishScan
  have hpow : (2 : Int) ^ 63 = 9223372036854775808 := by norm_num
  have hcast : (n : Int) < 2 ^ 63 := by
    rw [hpow]
    exact_mod_cast h
  have hnonneg : (0 : Int) ≤ (n : Int) := Int.natCast_nonneg n
  rw [if_neg (by rintro (hbad | hbad) <;> omega)]
  rfl

theorem sscanfDd_decDigits (n : Nat) (h : n < 2 ^ 63) :
    sscanfDd ⟨decDigits n ++ ['d']⟩ = some (n : Int) := by
  obtain ⟨m, cs, hm, hcons⟩ := decDigits_head n
  have hall : ∀ x ∈ Nat.digitChar m :: cs, x.isDigit = true := hcons ▸ decDigits_all_digit n
  have hc : (Nat.digitChar m).isDigit = true := digitChar_isDigit hm
  have hval : digitsVal (Nat.digitChar m :: cs) = n := hcons ▸ digitsVal_decDigits n
  have hdata : String.data ⟨decDigits n ++ ['d']⟩ = Nat.digitChar m :: (cs ++ ['d']) := by
    rw [hcons]; rfl
  have hsign : splitSign (Nat.digitChar m :: (cs ++ ['d'])) =
      (false, Nat.digitChar m :: (cs ++ ['d'])) := by
    show (if Nat.digitChar m = '-' then (true, cs ++ ['d'])
          else if Nat.digitChar m = '+' then (false, cs ++ ['d'])
          else (false, Nat.digitChar m :: (cs ++ ['d']))) =
        (false, Nat.digitChar m :: (cs ++ ['d']))
    rw [if_neg (isDigit_ne_minus hc), if_neg (isDigit_ne_plus hc)]
  have hdlit : List.takeWhile Char.isDigit ['d'] = [] := by decide
  have hdlit2 : List.dropWhile Char.isDigit ['d'] = ['d'] := by decide
  have htake : (Nat.digitChar m :: (cs ++ ['d'])).takeWhile Char.isDigit =
      Nat.digitChar m :: cs := by
    show ((Nat.digitChar m :: cs) ++ ['d']).takeWhile Char.isDigit = Nat.digitChar m :: cs
    rw [List.takeWhile_append_of_pos (fun a ha => hall a ha), hdlit, List.append_nil]
  have hdrop : (Nat.digitChar m :: (cs ++ ['d'])).dropWhile Char.isDigit = ['d'] := by
    show ((Nat.digitChar m :: cs) ++ ['d']).dropWhile Char.isDigit = ['d']
    rw [List.dropWhile_append_of_pos (fun a ha => hall a ha), hdlit2]
  unfold sscanfDd
  rw [hdata, skipSpace_digitChar hm]
  show scanDigits (splitSign (Nat.digitChar m :: (cs ++ ['d']))) = some (n : Int)
  rw [hsign]
  show (if ((Nat.digitChar m :: (cs ++ ['d'])).takeWhile Char.isDigit).isEmpty = true then none
        else finishScan
          (digitsVal ((Nat.digitChar m :: (cs ++ ['d'])).takeWhile Char.isDigit) : Int)
          ((Nat.digitChar m :: (cs ++ ['d'])).dropWhile Char.isDigit)) = some (n : Int)
  rw [htake, hdrop, hval, if_neg (by simp)]
  exact finishScan_d n h []

theorem sscanfDd_repr (n : Nat) (h : n < 2 ^ 63) :
    sscanfDd (Nat.repr n ++ "d") = some (n : Int) := by
  have : Nat.repr n ++ "d" = ⟨decDigits n ++ ['d']⟩ := by
    rw [repr_eq_decDigits]
    rfl
  rw [this, sscanfDd_decDigits n h]

theorem repr_append_d_ne_DeleteMarker (n : Nat) : Nat.repr n ++ "d" ≠ "DeleteMarker" := by
  intro heq
  have hdata := congrArg String.data heq
  rw [repr_eq_decDigits] at hdata
  obtain ⟨c, cs, hcons⟩ : ∃ c cs, decDigits n = c :: cs := by
    cases hd : decDigits n with
    | nil => exact absurd hd (decDigits_ne_nil n)
    | cons c cs => exact ⟨c, cs, rfl⟩
  have hc : c.isDigit = true := decDigits_all_digit n c (hcons ▸ List.mem_cons_self c cs)
  have hdata2 : c :: (cs ++ ['d']) = "DeleteMarker".data := by
    rw [← hdata, hcons]
    rfl
  have hD : c = 'D' := by
    have := congrArg (List.headI) hdata2
    simpa using this
  subst hD
  exact absurd hc (by decide)

theorem parseILMExpiration_repr (n : Nat) (h : n < 2 ^ 63) :
    parseILMExpiration (Nat.repr n ++ "d") =
      { Date := zeroDate, Days := (n : Int), DeleteMarker := false } := by
  unfold parseILMExpiration
  rw [if_neg (repr_append_d_ne_DeleteMarker n), sscanfDd_repr n h]

theorem decodeExpiration_days (n : Nat) (h : 1 ≤ n) :
    decodeExpiration { Date := zeroDate, Days := (n : Int), DeleteMarker := false } =
      Nat.repr n ++ "d" := by
  unfold decodeExpiration
  rw [if_neg (by simp),
    if_pos (show ((n : Int) ≠ 0) from by exact_mod_cast Nat.pos_iff_ne_zero.mp h)]
  show Int.repr (Int.ofNat n) ++ "d" = _
  rfl


/-! ### The claims -/

/-- Claim C1, corrected: for every `n` with `1 ≤ n < 2 ^ 63`, parsing the
duration string `"<n>d"` gives the `Days n` expiration and the read-side
decoding prints `"<n>d"` again.  The claim's range `n ≥ 0` fails at
`n = 0` (see the counterexample), and the scanner rejects values that do
not fit a signed 64-bit integer. -/
theorem expirationDurationRoundTrip (n : Nat) (h1 : 1 ≤ n) (h2 : n < 2 ^ 63) :
    parseILMExpiration (Nat.repr n ++ "d") =
      { Date := zeroDate, Days := (n : Int), DeleteMarker := false } ∧
    decodeExpiration { Date := zeroDate, Days := (n : Int), DeleteMarker := false } =
      Nat.repr n ++ "d" :=
  ⟨parseILMExpiration_repr n h2, decodeExpiration_days n h1⟩

/-- Claim C1's counterexample: at `n = 0` the parse yields `Days 0`, which
the read side decodes to the empty string, not `"0d"`. -/
theorem expirationRoundTripFailsAtZero :
    parseILMExpiration (Nat.repr 0 ++ "d") =
      { Date := zeroDate, Days := 0, DeleteMarker := false } ∧
    decodeExpiration (parseILMExpiration (Nat.repr 0 ++ "d")) = "" ∧
    Nat.repr 0 ++ "d" = "0d" ∧ ("" : String) ≠ "0d" := by
  refine ⟨?_, ?_, ?_, ?_⟩ <;> decide

/-- Witness for C1's theorem at `n = 5`. -/
theorem expirationDurationRoundTripWitness :
    parseILMExpiration (Nat.repr 5 ++ "d") =
      { Date := zeroDate, Days := ((5 : Nat) : Int), DeleteMarker := false } ∧
    decodeExpiration { Date := zeroDate, Days := ((5 : Nat) : Int), DeleteMarker := false } =
      Nat.repr 5 ++ "d" :=
  expirationDurationRoundTrip 5 (by decide) (by decide)

/-- Claim C2, confirmed: whenever the store's get-lifecycle call fails, the
read operation clears the local identity, returns no diagnostic, and sets
no rule data (the state is unchanged apart from the cleared identity). -/
theorem readFailureClearsIdentity (store : Store) (d : TFState) (e : String)
    (h : store.getBucketLifecycle d.id = Except.error e) :
    minioReadILMPolicy store d = ({ d with id := "" }, none) := by
  unfold minioReadILMPolicy
  rw [h]

/-- Witness for C2's theorem on a store whose get always fails. -/
theorem readFailureClearsIdentityWitness :
    minioReadILMPolicy failGetStore stateB1 = ({ stateB1 with id := "" }, none) :=
  readFailureClearsIdentity failGetStore stateB1 "connection refused" rfl

/-- Claim C3, corrected: an update with changed rule inputs performs the
create's state effects and then a read, and an update without changes is
exactly a read — but the create's diagnostics are discarded by the update,
so a store-write failure is NOT reported (see the counterexample). -/
theorem updateComposition (store : Store) (d : TFState) :
    minioUpdateILMPolicy store true d =
      minioReadILMPolicy store (minioCreateILMPolicy store d).1 ∧
    minioUpdateILMPolicy store false d = minioReadILMPolicy store d :=
  ⟨rfl, rfl⟩

/-- Claim C3's counterexample: on a store whose set-lifecycle fails, the
create operation reports the tagged store error, but the update operation
on the same inputs returns no diagnostic at all. -/
theorem updateDiscardsCreateError :
    (minioCreateILMPolicy failSetStore stateB1).2 =
      some { message := "creating bucket lifecycle failed", resource := "b1", cause := "boom" } ∧
    (minioUpdateILMPolicy failSetStore true stateB1).2 = none := by
  exact ⟨rfl, rfl⟩

/-- Claim C4, corrected: for every string on which the code's duration scan
fails, the date parse fails, and which is not the literal `DeleteMarker`,
the parse yields the empty variant and validation rejects it with the
format error naming the three accepted shapes (validation is a pure
function of the string, so no store call is involved).  The claim's
phrasing over the three spec SHAPES fails, because the scanner also
accepts strings outside the duration shape (see the counterexample). -/
theorem unparseableExpirationRejected (s : String)
    (h1 : s ≠ "DeleteMarker") (h2 : sscanfDd s = none) (h3 : goParseDate s = none) :
    parseILMExpiration s = Expiration.empty ∧
    validateILMExpiration s =
      some "expiration must be a duration (5d), date (1970-01-01), or \"DeleteMarker\"" := by
  have hp : parseILMExpiration s = Expiration.empty := by
    unfold parseILMExpiration
    rw [if_neg h1, h2, h3]
  exact ⟨hp, by unfold validateILMExpiration; rw [if_pos hp]⟩

/-- Claim C4's counterexample: `"5dx"` matches none of the three accepted
shapes, yet the scanner accepts it (trailing input is ignored), the parse
yields `Days 5`, and validation does not reject it. -/
theorem nonShapeStringAccepted :
    specDurationShapeB "5dx" = false ∧
    specDateShapeB "5dx" = false ∧
    "5dx" ≠ "DeleteMarker" ∧
    parseILMExpiration "5dx" = { Date := zeroDate, Days := 5, DeleteMarker := false } ∧
    validateILMExpiration "5dx" = none := by
  refine ⟨?_, ?_, ?_, ?_, ?_⟩ <;> decide

/-- Witness for C4's theorem at the string `"hello"`. -/
theorem unparseableExpirationRejectedWitness :
    parseILMExpiration "hello" = Expiration.empty ∧
    validateILMExpiration "hello" =
      some "expiration must be a duration (5d), date (1970-01-01), or \"DeleteMarker\"" :=
  unparseableExpirationRejected "hello" (by decide) (by decide) (by decide)

/-- Claim C5, confirmed: delete calls set-lifecycle with the empty rule
list; on failure it reports the store error tagged with the bucket (the
resource identity) and leaves the state unchanged, on success it clears
the identity and reports nothing. -/
theorem deleteSpec (store : Store) (d : TFState) :
    (∀ e, store.setBucketLifecycle d.id { Rules := [] } = some e →
      minioDeleteILMPolicy store d =
        (d, some { message := "deleting lifecycle configuration failed"
                   resource := d.id, cause := e })) ∧
    (store.setBucketLifecycle d.id { Rules := [] } = none →
      minioDeleteILMPolicy store d = ({ d with id := "" }, none)) := by
  constructor
  · intro e he
    unfold minioDeleteILMPolicy
    rw [he]
    rfl
  · intro he
    unfold minioDeleteILMPolicy
    rw [he]

/-- Witness for C5's theorem on a succeeding and on a failing store. -/
theorem deleteSpecWitness :
    minioDeleteILMPolicy okStore stateB1 = ({ stateB1 with id := "" }, none) ∧
    minioDeleteILMPolicy failSetStore stateB1 =
      (stateB1, some { message := "deleting lifecycle configuration failed"
                       resource := "b1", cause := "boom" }) :=
  ⟨(deleteSpec okStore stateB1).2 rfl, (deleteSpec failSetStore stateB1).1 "boom" rfl⟩

/-- Claim C6, corrected: decoding a compound (AND) filter that carries
prefix `p` and an empty tag list takes the simple branch, which reads the
TOP-LEVEL prefix field — empty in the compound shape — so it yields
`("", {})`, not `(p, {})`; it coincides with decoding a simple filter with
prefix `p` only when `p` is empty (see the counterexample). -/
theorem compoundEmptyTagsDecode (p : String) :
    decodeFilter { And := { Prefix := p, Tags := [] }, Prefix := "" } = ("", []) :=
  rfl

/-- Claim C6's counterexample at `p = "a"`: the compound shape with an
empty tag list does not decode like the simple shape with the same
prefix. -/
theorem compoundEmptyTagsDecodeDiffers :
    decodeFilter { And := { Prefix := "a", Tags := [] }, Prefix := "" } = ("", []) ∧
    decodeFilter { And := { Prefix := "", Tags := [] }, Prefix := "a" } = ("a", []) ∧
    decodeFilter { And := { Prefix := "a", Tags := [] }, Prefix := "" } ≠
      decodeFilter { And := { Prefix := "", Tags := [] }, Prefix := "a" } := by
  refine ⟨rfl, rfl, ?_⟩
  decide

/-- Claim C7, confirmed: the filter encoding selects the compound AND
shape, copying prefix and tags verbatim, exactly when the tag mapping is
non-empty (even with an empty prefix), selects the simple prefix shape
exactly when it is empty, and permuting the tag input permutes the encoded
tag list (order is irrelevant in the unordered target). -/
theorem filterEncodeSelection :
    (∀ r : FlatRule, r.tags ≠ [] →
      (buildRule r).RuleFilter =
        { And := { Prefix := r.filter, Tags := r.tags.map fun p => { Key := p.1, Value := p.2 } }
          Prefix := "" }) ∧
    (∀ r : FlatRule, r.tags = [] →
      (buildRule r).RuleFilter = { And := { Prefix := "", Tags := [] }, Prefix := r.filter }) ∧
    (∀ r s : FlatRule, r.tags.Perm s.tags →
      ((buildRule r).RuleFilter.And.Tags).Perm ((buildRule s).RuleFilter.And.Tags)) := by
  refine ⟨?_, ?_, ?_⟩
  · intro r h
    show buildFilter r.filter r.tags = _
    unfold buildFilter
    rw [if_pos (List.length_pos.mpr h)]
  · intro r h
    show buildFilter r.filter r.tags = _
    unfold buildFilter
    rw [h]
    rfl
  · intro r s hperm
    show (buildFilter r.filter r.tags).And.Tags.Perm (buildFilter s.filter s.tags).And.Tags
    by_cases hr : r.tags = []
    · have hs : s.tags = [] := by
        rw [hr] at hperm
        exact hperm.symm.eq_nil
      rw [hr, hs]
      exact List.Perm.refl []
    · have hs : s.tags ≠ [] := by
        intro h0
        rw [h0] at hperm
        exact hr hperm.eq_nil
      unfold buildFilter
      rw [if_pos (List.length_pos.mpr hr), if_pos (List.length_pos.mpr hs)]
      exact hperm.map _

/-- Witness for C7's theorem: the spec's `r2` scenario (tags present,
empty prefix) produces the compound shape, and the `r1` scenario (no
tags) produces the simple shape. -/
theorem filterEncodeSelectionWitness :
    (buildRule r2In).RuleFilter =
      { And := { Prefix := "", Tags := [{ Key := "k", Value := "v" }] }, Prefix := "" } ∧
    (buildRule r1In).RuleFilter = { And := { Prefix := "", Tags := [] }, Prefix := "tmp/" } :=
  ⟨filterEncodeSelection.1 r2In (by decide), filterEncodeSelection.2.1 r1In rfl⟩

/-- Claim C8, confirmed: the transition encoder maps the empty descriptor
list to the empty variant; on a one-element list it scans the `days` field
first, only on failure parses the `date` field, pairing either success
with the storage class; and when neither parses it yields the empty
variant (the function has no error channel, and the schema attaches no
validator to the transition block). -/
theorem transitionEncoderSpec :
    parseILMTransition [] = Transition.empty ∧
    (∀ (t : TransitionFlat) (n : Int), sscanfDd t.days = some n →
      parseILMTransition [t] =
        { Date := zeroDate, StorageClass := t.storage_class, Days := n }) ∧
    (∀ (t : TransitionFlat) (dt : GoDate),
      sscanfDd t.days = none → goParseDate t.date = some dt →
      parseILMTransition [t] =
        { Date := dt, StorageClass := t.storage_class, Days := 0 }) ∧
    (∀ t : TransitionFlat, sscanfDd t.days = none → goParseDate t.date = none →
      parseILMTransition [t] = Transition.empty) := by
  refine ⟨rfl, ?_, ?_, ?_⟩
  · intro t n h
    show ((match sscanfDd t.days with
          | some d => { Date := zeroDate, StorageClass := t.storage_class, Days := d }
          | none =>
            match goParseDate t.date with
            | some dt => { Date := dt, StorageClass := t.storage_class, Days := 0 }
            | none => Transition.empty : Transition)) = _
    rw [h]
  · intro t dt h1 h2
    show ((match sscanfDd t.days with
          | some d => { Date := zeroDate, StorageClass := t.storage_class, Days := d }
          | none =>
            match goParseDate t.date with
            | some dt => { Date := dt, StorageClass := t.storage_class, Days := 0 }
            | none => Transition.empty : Transition)) = _
    rw [h1, h2]
  · intro t h1 h2
    show ((match sscanfDd t.days with
          | some d => { Date := zeroDate, StorageClass := t.storage_class, Days := d }
          | none =>
            match goParseDate t.date with
            | some dt => { Date := dt, StorageClass := t.storage_class, Days := 0 }
            | none => Transition.empty : Transition)) = _
    rw [h1, h2]

/-- Witness for C8's theorem on the three one-element branches. -/
theorem transitionEncoderSpecWitness :
    parseILMTransition [{ days := "7d", date := "", storage_class := "GLACIER" }] =
      { Date := zeroDate, StorageClass := "GLACIER", Days := 7 } ∧
    parseILMTransition [{ days := "", date := "2021-01-02", storage_class := "GLACIER" }] =
      { Date := ⟨2021, 1, 2⟩, StorageClass := "GLACIER", Days := 0 } ∧
    parseILMTransition [{ days := "", date := "", storage_class := "GLACIER" }] =
      Transition.empty :=
  ⟨transitionEncoderSpec.2.1 _ 7 (by decide),
   transitionEncoderSpec.2.2.1 _ ⟨2021, 1, 2⟩ (by decide) (by decide),
   transitionEncoderSpec.2.2.2 _ (by decide) (by decide)⟩

/-- Claim C9, confirmed: the spec's first end-to-end scenario — building
the store rule for `{id:"r1", expiration:"5d", filter:"tmp/", tags:{}}`
gives expiration `Days 5`, the simple `tmp/` filter and status `Enabled`,
and decoding that store rule back gives exactly the flat rule of the
claim. -/
theorem endToEndRuleR1 :
    buildRule r1In =
      { ID := "r1"
        Expiration := { Date := zeroDate, Days := 5, DeleteMarker := false }
        Transition := Transition.empty
        NoncurrentVersionExpiration := { NoncurrentDays := 0 }
        NoncurrentVersionTransition := { NoncurrentDays := 0 }
        Status := "Enabled"
        RuleFilter := { And := { Prefix := "", Tags := [] }, Prefix := "tmp/" } } ∧
    decodeRule (buildRule r1In) =
      { id := "r1", expiration := "5d", transition := []
        noncurrent_version_expiration_days := 0, noncurrent_version_transition_days := 0
        status := "Enabled", filter := "tmp/", tags := [] } := by
  constructor <;> decide

/-- Claim C10, confirmed: `"0d"` matches the duration shape, yet it parses
to `Days 0`, which is structurally the zero `Expiration` struct, so the
validation entry point rejects it with the format error. -/
theorem zeroDurationRejected :
    specDurationShapeB "0d" = true ∧
    parseILMExpiration "0d" = Expiration.empty ∧
    validateILMExpiration "0d" =
      some "expiration must be a duration (5d), date (1970-01-01), or \"DeleteMarker\"" := by
  refine ⟨?_, ?_, ?_⟩ <;> decide

end Minio
